import Mathlib

/- Verification of the storage-backend core of backy2 (kalkin/backy2):
   the abstract pipeline class in src/backy2/data_backends/__init__.py and the
   null test backend in src/backy2/data_backends/null.py.  Python machine state
   (queues, the latched exception, per-worker status slots) is embedded as
   explicit Lean state; methods become pure functions from state to
   outcome-and-state.  Blocking primitives (bounded queue put, queue get,
   join) are modelled by explicit outcome constructors recording that the
   caller suspends; a completed blocking put is modelled by its final effect,
   an append.  External libraries are modelled at their interface boundary:
   hashlib.md5 by a full MD5 implementation below, shortuuid.uuid by a free
   token parameter constrained to the library documented output format
   (22 characters over its 57-symbol default alphabet), and
   backy2.utils.generate_block by a function parameter. -/

namespace Backy2

/- MD5, modelling hashlib.md5(...).hexdigest() as used by DataBackend._uid.
   Words are Nat reduced mod 2^32 at every arithmetic step. -/

namespace MD5

def M32 : Nat := 4294967296

def add32 (a b : Nat) : Nat := (a + b) % M32

def not32 (a : Nat) : Nat := Nat.xor a (M32 - 1)

def rotl32 (x s : Nat) : Nat :=
  Nat.lor (Nat.shiftLeft x s % M32) (Nat.shiftRight x (32 - s))

def fF (b c d : Nat) : Nat := Nat.lor (Nat.land b c) (Nat.land (not32 b) d)

def fG (b c d : Nat) : Nat := Nat.lor (Nat.land d b) (Nat.land (not32 d) c)

def fH (b c d : Nat) : Nat := Nat.xor b (Nat.xor c d)

def fI (b c d : Nat) : Nat := Nat.xor c (Nat.lor b (not32 d))

/- Constant table of RFC 1321, T[i] = floor(2^32 * abs(sin(i+1))). -/
def kTable : List Nat :=
  [0xd76aa478, 0xe8c7b756, 0x242070db, 0xc1bdceee,
   0xf57c0faf, 0x4787c62a, 0xa8304613, 0xfd469501,
   0x698098d8, 0x8b44f7af, 0xffff5bb1, 0x895cd7be,
   0x6b901122, 0xfd987193, 0xa679438e, 0x49b40821,
   0xf61e2562, 0xc040b340, 0x265e5a51, 0xe9b6c7aa,
   0xd62f105d, 0x02441453, 0xd8a1e681, 0xe7d3fbc8,
   0x21e1cde6, 0xc33707d6, 0xf4d50d87, 0x455a14ed,
   0xa9e3e905, 0xfcefa3f8, 0x676f02d9, 0x8d2a4c8a,
   0xfffa3942, 0x8771f681, 0x6d9d6122, 0xfde5380c,
   0xa4beea44, 0x4bdecfa9, 0xf6bb4b60, 0xbebfbc70,
   0x289b7ec6, 0xeaa127fa, 0xd4ef3085, 0x04881d05,
   0xd9d4d039, 0xe6db99e5, 0x1fa27cf8, 0xc4ac5665,
   0xf4292244, 0x432aff97, 0xab9423a7, 0xfc93a039,
   0x655b59c3, 0x8f0ccc92, 0xffeff47d, 0x85845dd1,
   0x6fa87e4f, 0xfe2ce6e0, 0xa3014314, 0x4e0811a1,
   0xf7537e82, 0xbd3af235, 0x2ad7d2bb, 0xeb86d391]

def sTable : List Nat :=
  [7, 12, 17, 22, 7, 12, 17, 22, 7, 12, 17, 22, 7, 12, 17, 22,
   5, 9, 14, 20, 5, 9, 14, 20, 5, 9, 14, 20, 5, 9, 14, 20,
   4, 11, 16, 23, 4, 11, 16, 23, 4, 11, 16, 23, 4, 11, 16, 23,
   6, 10, 15, 21, 6, 10, 15, 21, 6, 10, 15, 21, 6, 10, 15, 21]

def gIdx (i : Nat) : Nat :=
  if i < 16 then i
  else if i < 32 then (5 * i + 1) % 16
  else if i < 48 then (3 * i + 5) % 16
  else (7 * i) % 16

def fAux (i b c d : Nat) : Nat :=
  if i < 16 then fF b c d
  else if i < 32 then fG b c d
  else if i < 48 then fH b c d
  else fI b c d

/- Little-endian 32-bit word number g of a 64-byte chunk. -/
def word (chunk : List Nat) (g : Nat) : Nat :=
  chunk.getD (4 * g) 0 + 256 * chunk.getD (4 * g + 1) 0 +
    65536 * chunk.getD (4 * g + 2) 0 + 16777216 * chunk.getD (4 * g + 3) 0

def roundStep (chunk : List Nat) (st : Nat × Nat × Nat × Nat) (i : Nat) :
    Nat × Nat × Nat × Nat :=
  let a := st.1
  let b := st.2.1
  let c := st.2.2.1
  let d := st.2.2.2
  let f := add32 (add32 (fAux i b c d) a) (add32 (kTable.getD i 0) (word chunk (gIdx i)))
  (d, add32 b (rotl32 f (sTable.getD i 0)), b, c)

def processChunk (st : Nat × Nat × Nat × Nat) (chunk : List Nat) :
    Nat × Nat × Nat × Nat :=
  let r := (List.range 64).foldl (roundStep chunk) st
  (add32 st.1 r.1, add32 st.2.1 r.2.1, add32 st.2.2.1 r.2.2.1, add32 st.2.2.2 r.2.2.2)

/- Message padding: a 0x80 byte, zeros up to 56 mod 64, then the original bit
   length as a 64-bit little-endian number. -/
def padded (msg : List Nat) : List Nat :=
  let lenBits := (8 * msg.length) % (2 ^ 64)
  let padZeros := (119 - msg.length % 64) % 64
  msg ++ [128] ++ List.replicate padZeros 0 ++
    (List.range 8).map (fun i => lenBits / (256 ^ i) % 256)

def initState : Nat × Nat × Nat × Nat :=
  (0x67452301, 0xefcdab89, 0x98badcfe, 0x10325476)

/- Processes n successive 64-byte chunks; the padded message length is always
   a multiple of 64, so a chunk-count recursion is exact. -/
def processN : Nat → (Nat × Nat × Nat × Nat) → List Nat → (Nat × Nat × Nat × Nat)
  | 0, st, _ => st
  | n + 1, st, bs => processN n (processChunk st (bs.take 64)) (bs.drop 64)

def md5Words (msg : List Nat) : Nat × Nat × Nat × Nat :=
  processN ((padded msg).length / 64) initState (padded msg)

def toLE32 (w : Nat) : List Nat :=
  [w % 256, w / 256 % 256, w / 65536 % 256, w / 16777216 % 256]

/- Digest as 16 bytes, little-endian per state word. -/
def md5 (msg : List Nat) : List Nat :=
  let w := md5Words msg
  toLE32 w.1 ++ toLE32 w.2.1 ++ toLE32 w.2.2.1 ++ toLE32 w.2.2.2

def hexChars : List Char := "0123456789abcdef".toList

def hexChar (n : Nat) : Char := hexChars.getD n '0'

def toHexByte (b : Nat) : List Char := [hexChar (b / 16 % 16), hexChar (b % 16)]

/- The hexdigest as a character list: two lowercase hex digits per byte. -/
def hexdigestChars (msg : List Nat) : List Char := ((md5 msg).map toHexByte).flatten

def hexdigest (msg : List Nat) : String := String.mk (hexdigestChars msg)

end MD5

/- Shared data model of the two backend classes. -/

/- Byte strings are lists of byte values. -/
abbrev Bytes := List Nat

/- Python exception values that the embedded code can raise or latch. -/
inductive PyErr
  | latched (msg : String)
  | runtimeError (msg : String)
  | fileNotFound (msg : String)
  | queueEmpty
  | typeError (msg : String)
  | valueError (msg : String)
  | unboundLocal (name : String)
deriving DecidableEq

/- Python values that travel through the write queue tuples. -/
inductive PyVal
  | str (s : String)
  | bytes (b : Bytes)
  | pynone
  | callable (ref : Nat)
deriving DecidableEq

/- Result of Python len() on a PyVal; none models the TypeError raised on an
   unsized value such as None. -/
def pyLen : PyVal → Option Nat
  | .str s => some s.length
  | .bytes b => some b.length
  | .pynone => none
  | .callable _ => none

/- Caller-owned block descriptor (id, uid, size), as used by read and the
   reader workers. -/
structure Block where
  id : Nat
  uid : String
  size : Nat
deriving DecidableEq

/- An entry of the write queue: the stop sentinel None, or the Python tuple
   enqueued by save. -/
inductive WEntry
  | sentinel
  | tuple (fields : List PyVal)
deriving DecidableEq

/- Model of Python queue.Queue: FIFO item list, maxsize (0 means unbounded,
   as for queue.Queue()), and the unfinished-task counter that put increments,
   task_done decrements and join waits on. -/
structure PyQueue (α : Type) where
  items : List α
  maxsize : Nat
  unfinished : Nat
deriving DecidableEq

/- Queue is at capacity: a put would block. -/
def PyQueue.isFull (q : PyQueue α) : Bool :=
  q.maxsize != 0 && q.maxsize ≤ q.items.length

/- Effect of a completed put: append at the tail, count one unfinished task. -/
def PyQueue.push (q : PyQueue α) (x : α) : PyQueue α :=
  { q with items := q.items ++ [x], unfinished := q.unfinished + 1 }

/- Effect of get: remove and return the head; none when the queue is empty and
   the caller would block (or time out). -/
def PyQueue.pop (q : PyQueue α) : Option (α × PyQueue α) :=
  match q.items with
  | [] => none
  | x :: rest => some (x, { q with items := rest })

def PyQueue.taskDone (q : PyQueue α) : PyQueue α :=
  { q with unfinished := q.unfinished - 1 }

/- Worker status constants from both source modules. -/

def STATUS_NOTHING : Nat := 0

def STATUS_READING : Nat := 1

def STATUS_WRITING : Nat := 2

def STATUS_THROTTLING : Nat := 3

def STATUS_QUEUE : Nat := 4

/- Default alphabet of the shortuuid library (modelled at the library
   boundary): digits 2-9, uppercase without I and O, lowercase without l;
   57 symbols, tokens are 22 characters long. -/
def shortuuidAlphabet : List Char :=
  "23456789ABCDEFGHJKLMNPQRSTUVWXYZabcdefghijkmnopqrstuvwxyz".toList

/- Model of str.encode with the ascii codec: the code points as bytes. -/
def asciiBytes (s : String) : List Nat := s.toList.map Char.toNat

/- Outcome of save. -/
inductive SaveOutcome
  | raised (e : PyErr)
  | blockedOnFull
  | ok (uid : String) (joined : Bool)
deriving DecidableEq

/- Outcome of read_get. -/
inductive ReadGetOut
  | raised (e : PyErr)
  | blocked
  | ok (block : Block) (offset : Nat) (length : Nat) (data : Option Bytes)
deriving DecidableEq

/- Outcome of read. -/
inductive ReadOutcome
  | retNone
  | raised (e : PyErr)
  | bytes (d : Bytes)
  | blocked
  | blockedOnFull
deriving DecidableEq

/- Events emitted by one writer-worker iteration; sleepConsume n models
   time.sleep(write_throttling.consume(n)) with n the payload length, and the
   mediumWrite and invokedCallback constructors exist so that their absence
   from a trace is a meaningful statement. -/
inductive WriterEvent
  | setStatus (id : Nat) (status : Nat)
  | sleepConsume (nbytes : Nat)
  | mediumWrite (uid : String) (data : Bytes)
  | invokedCallback (uid : String)
  | taskDone
  | exited
deriving DecidableEq

inductive WriterResult
  | blockedOnEmptyQueue
  | exited
  | raised (e : PyErr)
  | looped
deriving DecidableEq

inductive ReaderResult
  | blockedOnEmptyQueue
  | exited
  | blockedOnFullResultQueue
  | looped
deriving DecidableEq

/- Events of close, in program order. -/
inductive CloseEvent
  | putWriteSentinel
  | joinWriter
  | putReadSentinel
  | joinReader
deriving DecidableEq

/- Abstract base class backy2.data_backends.DataBackend. -/

namespace DataBackend

/- Method _uid (lines 21-28 of the base module, repeated verbatim at lines
   119-126 of the null module): a fresh 22-character base-57 shortuuid token,
   prefixed with the first 10 characters of the md5 hexdigest of its ascii
   bytes.  The random token draw is a parameter. -/
def uidChars (suuid : String) : List Char :=
  (MD5.hexdigestChars (asciiBytes suuid)).take 10 ++ suuid.toList

def uid (suuid : String) : String := String.mk (uidChars suuid)

/- State of a backend instance as the base class uses it: the latched
   exception self.last_exception and the three queues the subclass creates. -/
structure State where
  last_exception : Option PyErr
  write_queue : PyQueue WEntry
  read_queue : PyQueue (Option Block)
  read_data_queue : PyQueue (Block × Option Bytes)
deriving DecidableEq

/- Method save (base module lines 31-39): raise the latched exception if set;
   else generate a uid, put the tuple (uid, data, callback) on the write
   queue (a full bounded queue blocks the caller), join the queue when _sync,
   and return the uid.  The joined flag of the ok outcome records that the
   join was executed. -/
def save (s : State) (token : String) (data : Bytes) (sync : Bool) (callback : PyVal) :
    SaveOutcome × State :=
  match s.last_exception with
  | some e => (.raised e, s)
  | none =>
    let u := uid token
    if s.write_queue.isFull then (.blockedOnFull, s)
    else
      (.ok u sync,
       { s with write_queue := s.write_queue.push (.tuple [.str u, .bytes data, callback]) })

/- Method read_get (base module lines 65-75): raise the latched exception if
   set; get the next (block, data) pair from the result queue, raising
   queue.Empty after the timeout when none arrives; compute offset 0 and
   length len(data) -- len of an absent (None) data raises TypeError before
   task_done runs; else task_done and return the 4-tuple. -/
def read_get (s : State) : ReadGetOut × State :=
  match s.last_exception with
  | some e => (.raised e, s)
  | none =>
    match s.read_data_queue.pop with
    | none => (.raised .queueEmpty, s)
    | some (entry, q1) =>
      match entry.2 with
      | none =>
        (.raised (.typeError "object of type NoneType has no len"),
         { s with read_data_queue := q1 })
      | some d =>
        (.ok entry.1 0 d.length (some d), { s with read_data_queue := q1.taskDone })

/- Method read (base module lines 49-62): put the block on the read-request
   queue; when sync, call read_get, raise RuntimeError when the returned
   block id differs from the submitted one, raise FileNotFoundError naming
   the submitted uid when the returned data is None, else return the data. -/
def read (s : State) (block : Block) (sync : Bool) : ReadOutcome × State :=
  if s.read_queue.isFull then (.blockedOnFull, s)
  else
    let s1 : State := { s with read_queue := s.read_queue.push (some block) }
    if sync then
      match read_get s1 with
      | (.raised e, s2) => (.raised e, s2)
      | (.blocked, s2) => (.blocked, s2)
      | (.ok rblock _ _ odata, s2) =>
        if rblock.id != block.id then
          (.raised (.runtimeError "Do not mix threaded reading with sync reading!"), s2)
        else
          match odata with
          | none => (.raised (.fileNotFound ("UID " ++ block.uid ++ " not found.")), s2)
          | some d => (.bytes d, s2)
    else (.retNone, s1)

end DataBackend

/- Null test backend backy2.data_backends.null.DataBackend. -/

namespace NullBackend

def WRITE_QUEUE_LENGTH : Nat := 20

def READ_QUEUE_LENGTH : Nat := 20

/- Configuration values read at construction (null module lines 34-41),
   after defaulting: simultaneous_writes and simultaneous_reads default to 1,
   both bandwidths to 0. -/
structure Config where
  block_size : Nat
  simultaneous_writes : Nat
  simultaneous_reads : Nat
  bandwidth_read : Nat
  bandwidth_write : Nat
deriving DecidableEq

/- State of a null backend instance. -/
structure State where
  fatal_error : Option PyErr
  default_block_size : Nat
  write_queue : PyQueue WEntry
  read_queue : PyQueue (Option Block)
  read_data_queue : PyQueue (Block × Option Bytes)
  writer_thread_status : List Nat
  reader_thread_status : List Nat
  writer_threads : Nat
  reader_threads : Nat
deriving DecidableEq

/- Constructor (null module lines 34-68): bounded write queue of capacity
   simultaneous_writes + WRITE_QUEUE_LENGTH, unbounded read-request queue,
   bounded read-result queue of capacity simultaneous_reads +
   READ_QUEUE_LENGTH, and one status slot per started worker thread. -/
def init (cfg : Config) : State :=
  { fatal_error := none
    default_block_size := cfg.block_size
    write_queue :=
      { items := [], maxsize := cfg.simultaneous_writes + WRITE_QUEUE_LENGTH, unfinished := 0 }
    read_queue := { items := [], maxsize := 0, unfinished := 0 }
    read_data_queue :=
      { items := [], maxsize := cfg.simultaneous_reads + READ_QUEUE_LENGTH, unfinished := 0 }
    writer_thread_status := List.replicate cfg.simultaneous_writes STATUS_NOTHING
    reader_thread_status := List.replicate cfg.simultaneous_reads STATUS_NOTHING
    writer_threads := cfg.simultaneous_writes
    reader_threads := cfg.simultaneous_reads }

/- Method save override (null module lines 129-134): raise the latched
   fatal_error if set, else generate and return a uid.  Nothing is enqueued
   (the comment in the source says: do not save anything), the _sync flag is
   ignored and there is no callback parameter. -/
def save (s : State) (token : String) (_data : Bytes) (_sync : Bool) :
    SaveOutcome × State :=
  match s.fatal_error with
  | some e => (.raised e, s)
  | none => (.ok (DataBackend.uid token) false, s)

/- Method read override (null module lines 149-155): put the block on the
   read-request queue; the sync branch evaluates rblock.id on its first line,
   before rblock is assigned from read_get on the following line, so it
   always raises UnboundLocalError; the remaining two lines (the read_get
   call and a return of a default_block_size-long string of spaces) are
   unreachable. -/
def read (s : State) (block : Block) (sync : Bool) : ReadOutcome × State :=
  if s.read_queue.isFull then (.blockedOnFull, s)
  else
    let s1 : State := { s with read_queue := s.read_queue.push (some block) }
    if sync then (.raised (.unboundLocal "rblock"), s1)
    else (.retNone, s1)

/- Method read_get override (null module lines 158-163): no timeout parameter
   and no latch check; get the next (block, data) pair (blocking indefinitely
   on an empty queue), offset 0, length len(data) -- TypeError on absent
   data -- then task_done and return. -/
def read_get (s : State) : ReadGetOut × State :=
  match s.read_data_queue.pop with
  | none => (.blocked, s)
  | some (entry, q1) =>
    match entry.2 with
    | none =>
      (.raised (.typeError "object of type NoneType has no len"),
       { s with read_data_queue := q1 })
    | some d =>
      (.ok entry.1 0 d.length (some d), { s with read_data_queue := q1.taskDone })

/- Method read_raw (null module lines 115-116): delegates to
   backy2.utils.generate_block, which is outside this package and therefore a
   parameter; note it fabricates data for any block id, it never reports a
   missing uid. -/
def read_raw (gen : Nat → Nat → Bytes) (block_id : Nat) (block_size : Nat) : Bytes :=
  gen block_id block_size

/- One iteration of the _writer loop (null module lines 71-92): get an entry
   (blocking on an empty queue); break when it is the sentinel or a fatal
   error is latched; unpack it as the pair (uid, data) -- a tuple of any
   other arity raises ValueError; set status THROTTLING, sleep per
   write_throttling.consume(len(data)), set status NOTHING; set status
   WRITING, store nothing (null medium), set status NOTHING; task_done.
   There is no callback invocation anywhere in the loop body. -/
def writerStep (s : State) (id : Nat) : WriterResult × List WriterEvent × State :=
  match s.write_queue.pop with
  | none => (.blockedOnEmptyQueue, [], s)
  | some (entry, q1) =>
    let s1 : State := { s with write_queue := q1 }
    match entry with
    | .sentinel => (.exited, [.exited], s1)
    | .tuple fields =>
      if s1.fatal_error.isSome then (.exited, [.exited], s1)
      else
        match fields with
        | [_uidv, datav] =>
          let s2 : State :=
            { s1 with writer_thread_status := s1.writer_thread_status.set id STATUS_THROTTLING }
          match pyLen datav with
          | none =>
            (.raised (.typeError "object of type NoneType has no len"),
             [.setStatus id STATUS_THROTTLING], s2)
          | some n =>
            (.looped,
             [.setStatus id STATUS_THROTTLING, .sleepConsume n, .setStatus id STATUS_NOTHING,
              .setStatus id STATUS_WRITING, .setStatus id STATUS_NOTHING, .taskDone],
             { s2 with
                writer_thread_status :=
                  (((s2.writer_thread_status.set id STATUS_NOTHING).set id
                      STATUS_WRITING).set id STATUS_NOTHING)
                write_queue := s2.write_queue.taskDone })
        | _ => (.raised (.valueError "too many values to unpack"), [], s1)

/- One iteration of the _reader loop (null module lines 95-112): get a block
   (blocking on an empty queue); break when it is the sentinel or a fatal
   error is latched; set status READING, data := read_raw(block.id,
   block.size); set status THROTTLING, sleep per consume(len(data)); set
   status NOTHING; put (block, data) on the bounded result queue (blocking
   when it is full); task_done on the request queue. -/
def readerStep (gen : Nat → Nat → Bytes) (s : State) (id : Nat) : ReaderResult × State :=
  match s.read_queue.pop with
  | none => (.blockedOnEmptyQueue, s)
  | some (entry, q1) =>
    let s1 : State := { s with read_queue := q1 }
    match entry with
    | none => (.exited, s1)
    | some block =>
      if s1.fatal_error.isSome then (.exited, s1)
      else
        let data := read_raw gen block.id block.size
        let s2 : State :=
          { s1 with
             reader_thread_status :=
               ((s1.reader_thread_status.set id STATUS_READING).set id
                   STATUS_THROTTLING).set id STATUS_NOTHING }
        if s2.read_data_queue.isFull then (.blockedOnFullResultQueue, s2)
        else
          (.looped,
           { s2 with
              read_data_queue := s2.read_data_queue.push (block, some data)
              read_queue := s2.read_queue.taskDone })

/- Method close (null module lines 194-202, textually identical to the base
   module lines 122-130): put one sentinel per writer thread on the write
   queue, join every writer thread, then put one sentinel per reader thread
   on the read-request queue, join every reader thread.  The event list
   records the four loops in program order. -/
def close (s : State) : State × List CloseEvent :=
  let s1 :=
    (List.range s.writer_threads).foldl
      (fun t _ => { t with write_queue := t.write_queue.push .sentinel }) s
  let ev1 := (List.range s.writer_threads).map fun _ => CloseEvent.putWriteSentinel
  let ev2 := (List.range s.writer_threads).map fun _ => CloseEvent.joinWriter
  let s2 :=
    (List.range s.reader_threads).foldl
      (fun t _ => { t with read_queue := t.read_queue.push none }) s1
  let ev3 := (List.range s.reader_threads).map fun _ => CloseEvent.putReadSentinel
  let ev4 := (List.range s.reader_threads).map fun _ => CloseEvent.joinReader
  (s2, ev1 ++ ev2 ++ (ev3 ++ ev4))

end NullBackend

/- Modelled from the spec: the reader worker of a medium able to report a uid
   absent is missing from src (the null read_raw fabricates data for every
   uid and no other medium is in the package); per sections 3 and 4.4 of the
   spec such a worker pushes the ReadResult (block, absent data) onto the
   result queue for a uid that was never written, and the not-found check is
   left to the consumer of read_get. -/
def specAbsentResultPush (s : DataBackend.State) (block : Block) : DataBackend.State :=
  { s with read_data_queue := s.read_data_queue.push (block, none) }

/- Character predicate for the uid format of the spec: ASCII digit or letter. -/
def isAlnumAscii (c : Char) : Bool :=
  (48 ≤ c.toNat && c.toNat ≤ 57) || (65 ≤ c.toNat && c.toNat ≤ 90) ||
    (97 ≤ c.toNat && c.toNat ≤ 122)

/- The three queue capacities of a null backend state, for invariance facts. -/
def queueCaps (s : NullBackend.State) : Nat × Nat × Nat :=
  (s.write_queue.maxsize, s.read_queue.maxsize, s.read_data_queue.maxsize)

/- Concrete fixtures for witnesses and evaluations. -/

def cfg4 : NullBackend.Config :=
  { block_size := 4096, simultaneous_writes := 1, simultaneous_reads := 1,
    bandwidth_read := 0, bandwidth_write := 0 }

def blk4 : Block := { id := 1, uid := "u1", size := 5 }

def blk5 : Block := { id := 2, uid := "u2", size := 5 }

/- A base-class state as a subclass with one writer and one reader sets it
   up: write and result queues of capacity 21, unbounded request queue, no
   latched exception. -/
def emptyDB : DataBackend.State :=
  { last_exception := none
    write_queue := { items := [], maxsize := 21, unfinished := 0 }
    read_queue := { items := [], maxsize := 0, unfinished := 0 }
    read_data_queue := { items := [], maxsize := 21, unfinished := 0 } }

def dbLatched : DataBackend.State :=
  { emptyDB with last_exception := some (.latched "medium failure") }

/- A state in which the result queue already holds the completed result of
   the block blk4. -/
def dbSync : DataBackend.State :=
  { emptyDB with
     read_data_queue := { items := [(blk4, some [104, 105])], maxsize := 21, unfinished := 1 } }

/- A state in which the result queue holds a completed result of a different
   block, as happens when sync and async reads are mixed. -/
def dbMismatch : DataBackend.State :=
  { emptyDB with
     read_data_queue := { items := [(blk5, some [1])], maxsize := 21, unfinished := 1 } }

/- The write queue contents produced by one base-class save call. -/
def savedJobItems : List WEntry :=
  (DataBackend.save emptyDB "tok" [1] false (.callable 7)).2.write_queue.items

/- A null backend whose write queue holds exactly the job the base save
   enqueues. -/
def nsWithSavedJob : NullBackend.State :=
  { NullBackend.init cfg4 with
     write_queue := { items := savedJobItems, maxsize := 21, unfinished := 1 } }

/- A null backend whose write queue holds a two-field job. -/
def nsTwoField : NullBackend.State :=
  { NullBackend.init cfg4 with
     write_queue := { items := [.tuple [.str "u", .bytes [5, 6]]], maxsize := 21, unfinished := 1 } }

/- A null backend with a latched fatal error and one pending read request. -/
def nsLatched : NullBackend.State :=
  { NullBackend.init cfg4 with
     fatal_error := some (.latched "medium failure")
     read_queue := { items := [some blk4], maxsize := 0, unfinished := 1 } }

/- Supporting lemmas. -/

theorem md5_length (msg : List Nat) : (MD5.md5 msg).length = 16 := by
  simp [MD5.md5, MD5.toLE32]

theorem toHexByte_flatten_length (l : List Nat) :
    ((l.map MD5.toHexByte).flatten).length = 2 * l.length := by
  induction l with
  | nil => simp
  | cons b t ih => simp [MD5.toHexByte, ih]; omega

theorem hexdigestChars_length (msg : List Nat) : (MD5.hexdigestChars msg).length = 32 := by
  unfold MD5.hexdigestChars
  rw [toHexByte_flatten_length, md5_length]

theorem hexChar_mem (n : Nat) : MD5.hexChar n ∈ MD5.hexChars := by
  by_cases h : n < 16
  · interval_cases n <;> decide
  · have h16 : MD5.hexChars.length = 16 := rfl
    have hl : MD5.hexChars.length ≤ n := by omega
    unfold MD5.hexChar
    rw [List.getD_eq_default _ _ hl]
    decide

theorem mem_hexdigestChars {msg : List Nat} {c : Char}
    (h : c ∈ MD5.hexdigestChars msg) : c ∈ MD5.hexChars := by
  unfold MD5.hexdigestChars at h
  rw [List.mem_flatten] at h
  obtain ⟨l, hl, hc⟩ := h
  rw [List.mem_map] at hl
  obtain ⟨b, _, rfl⟩ := hl
  simp only [MD5.toHexByte, List.mem_cons, List.not_mem_nil, or_false] at hc
  rcases hc with rfl | rfl
  · exact hexChar_mem _
  · exact hexChar_mem _

theorem alphabet_alnum : ∀ c ∈ shortuuidAlphabet, isAlnumAscii c = true := by decide

theorem closeFoldWrite (n : Nat) (s : NullBackend.State) :
    (List.range n).foldl
        (fun t _ => { t with write_queue := t.write_queue.push .sentinel }) s =
      { s with write_queue :=
          { items := s.write_queue.items ++ List.replicate n WEntry.sentinel,
            maxsize := s.write_queue.maxsize,
            unfinished := s.write_queue.unfinished + n } } := by
  induction n with
  | zero => simp
  | succ k ih =>
    rw [List.range_succ, List.foldl_append, ih]
    simp [PyQueue.push, List.replicate_succ']
    omega

theorem closeFoldRead (n : Nat) (s : NullBackend.State) :
    (List.range n).foldl
        (fun t _ => { t with read_queue := t.read_queue.push none }) s =
      { s with read_queue :=
          { items := s.read_queue.items ++ List.replicate n (none : Option Block),
            maxsize := s.read_queue.maxsize,
            unfinished := s.read_queue.unfinished + n } } := by
  induction n with
  | zero => simp
  | succ k ih =>
    rw [List.range_succ, List.foldl_append, ih]
    simp [PyQueue.push, List.replicate_succ']
    omega

theorem close_spec (s : NullBackend.State) :
    NullBackend.close s =
      ({ s with
          write_queue :=
            { items := s.write_queue.items ++ List.replicate s.writer_threads WEntry.sentinel,
              maxsize := s.write_queue.maxsize,
              unfinished := s.write_queue.unfinished + s.writer_threads },
          read_queue :=
            { items := s.read_queue.items ++ List.replicate s.reader_threads (none : Option Block),
              maxsize := s.read_queue.maxsize,
              unfinished := s.read_queue.unfinished + s.reader_threads } },
       List.replicate s.writer_threads CloseEvent.putWriteSentinel ++
       List.replicate s.writer_threads CloseEvent.joinWriter ++
       (List.replicate s.reader_threads CloseEvent.putReadSentinel ++
        List.replicate s.reader_threads CloseEvent.joinReader)) := by
  simp [NullBackend.close, closeFoldWrite, closeFoldRead, List.map_const']

/- Claim theorems. -/

/-- C1: for every call to save(data, sync, callback) on the base DataBackend:
when the latched exception is set, save raises it and the state, in
particular the write queue, is unchanged; otherwise save generates a fresh
uid from the fresh random token, and, when the bounded write queue is below
capacity, enqueues the job tuple carrying that uid, the payload and the
callback, returns the uid, and executes the write-queue join (blocking until
the job has been drained) exactly when the synchronous flag is set; when the
queue is at capacity the caller blocks with the queue unchanged. -/
theorem C1_save_contract (s : DataBackend.State) (token : String) (data : Bytes)
    (sync : Bool) (callback : PyVal) :
    (∀ e, s.last_exception = some e →
      DataBackend.save s token data sync callback = (.raised e, s)) ∧
    (s.last_exception = none → s.write_queue.isFull = false →
      DataBackend.save s token data sync callback =
        (.ok (DataBackend.uid token) sync,
         { s with write_queue :=
             s.write_queue.push (.tuple [.str (DataBackend.uid token), .bytes data, callback]) })) ∧
    (s.last_exception = none → s.write_queue.isFull = true →
      DataBackend.save s token data sync callback = (.blockedOnFull, s)) := by
  refine ⟨fun e he => ?_, fun h1 h2 => ?_, fun h1 h2 => ?_⟩
  · simp [DataBackend.save, he]
  · simp [DataBackend.save, h1, h2]
  · simp [DataBackend.save, h1, h2]

/-- C1 witness: on a fresh backend the non-latched branch of C1_save_contract
applies and yields the enqueued job and the returned uid. -/
theorem C1_save_contract_witness :
    emptyDB.last_exception = none ∧ emptyDB.write_queue.isFull = false ∧
    DataBackend.save emptyDB "tok" [1, 2] true .pynone =
      (.ok (DataBackend.uid "tok") true,
       { emptyDB with write_queue :=
           emptyDB.write_queue.push (.tuple [.str (DataBackend.uid "tok"), .bytes [1, 2], .pynone]) }) :=
  ⟨rfl, rfl, (C1_save_contract emptyDB "tok" [1, 2] true .pynone).2.1 rfl rfl⟩

/-- C2: evaluation at the failing input. The null override of read, called
synchronously, raises UnboundLocalError for the name rblock (it checks the
result identity before fetching the result), instead of first calling
read_get, validating the block id and returning the data; the base-class
read, which the claim describes, does behave as claimed at the analogous
states: it returns the retrieved data on an id match and raises the
protocol-violation RuntimeError on a mismatch. -/
theorem C2_sync_read_eval :
    (NullBackend.read (NullBackend.init cfg4) blk4 true).1 =
      ReadOutcome.raised (.unboundLocal "rblock") ∧
    (DataBackend.read dbSync blk4 true).1 = ReadOutcome.bytes [104, 105] ∧
    (DataBackend.read dbMismatch blk4 true).1 =
      ReadOutcome.raised (.runtimeError "Do not mix threaded reading with sync reading!") :=
  ⟨rfl, rfl, rfl⟩

/-- C3 counterexample: on the only backend in the package (the null test
backend), save(hello) returns a uid but discards the payload, and the
synchronous read of a Block carrying that uid does not return the saved
bytes: it raises UnboundLocalError, refuting the round-trip claim at the
concrete payload hello. -/
theorem C3_roundtrip_cex :
    (NullBackend.save (NullBackend.init cfg4) "CXc85b4rqinB7s5J52TRYb"
        [104, 101, 108, 108, 111] false).1 =
      SaveOutcome.ok (DataBackend.uid "CXc85b4rqinB7s5J52TRYb") false ∧
    (NullBackend.read
        (NullBackend.save (NullBackend.init cfg4) "CXc85b4rqinB7s5J52TRYb"
          [104, 101, 108, 108, 111] false).2
        { id := 1, uid := DataBackend.uid "CXc85b4rqinB7s5J52TRYb", size := 5 } true).1 ≠
      ReadOutcome.bytes [104, 101, 108, 108, 111] := by
  refine ⟨rfl, ?_⟩
  rw [show (NullBackend.read
        (NullBackend.save (NullBackend.init cfg4) "CXc85b4rqinB7s5J52TRYb"
          [104, 101, 108, 108, 111] false).2
        { id := 1, uid := DataBackend.uid "CXc85b4rqinB7s5J52TRYb", size := 5 } true).1 =
      ReadOutcome.raised (.unboundLocal "rblock") from rfl]
  simp

/-- C3 amended: on the null backend, for every fatal-error-free state, save
returns a uid computed from the fresh token and leaves the state unchanged
(the payload is discarded), and a synchronous read of any Block carrying
that uid raises UnboundLocalError instead of returning the data, so the
round-trip identity fails for every payload. -/
theorem C3_roundtrip_amended (s : NullBackend.State) (token : String) (data : Bytes)
    (h : s.fatal_error = none) (h2 : s.read_queue.maxsize = 0) :
    (NullBackend.save s token data false).1 =
      SaveOutcome.ok (DataBackend.uid token) false ∧
    (NullBackend.save s token data false).2 = s ∧
    (∀ bid bsize,
      (NullBackend.read (NullBackend.save s token data false).2
          { id := bid, uid := DataBackend.uid token, size := bsize } true).1 =
        ReadOutcome.raised (.unboundLocal "rblock")) ∧
    (∀ bid bsize,
      (NullBackend.read (NullBackend.save s token data false).2
          { id := bid, uid := DataBackend.uid token, size := bsize } true).1 ≠
        ReadOutcome.bytes data) := by
  have hs : NullBackend.save s token data false =
      (SaveOutcome.ok (DataBackend.uid token) false, s) := by
    simp [NullBackend.save, h]
  refine ⟨by rw [hs], by rw [hs], fun bid bsize => ?_, fun bid bsize => ?_⟩
  · rw [hs]
    simp [NullBackend.read, PyQueue.isFull, h2]
  · rw [hs]
    simp [NullBackend.read, PyQueue.isFull, h2]

/-- C3 amended witness: the amended behaviour at the concrete hello payload
on a freshly constructed null backend. -/
theorem C3_roundtrip_amended_witness :
    (NullBackend.init cfg4).fatal_error = none ∧
    (NullBackend.read
        (NullBackend.save (NullBackend.init cfg4) "CXc85b4rqinB7s5J52TRYb"
          [104, 101, 108, 108, 111] false).2
        { id := 1, uid := DataBackend.uid "CXc85b4rqinB7s5J52TRYb", size := 5 } true).1 =
      ReadOutcome.raised (.unboundLocal "rblock") :=
  ⟨rfl,
   (C3_roundtrip_amended (NullBackend.init cfg4) "CXc85b4rqinB7s5J52TRYb"
       [104, 101, 108, 108, 111] rfl rfl).2.2.1 1 5⟩

/-- C4: for every call to read_get on the base DataBackend: a latched
exception is raised immediately with the state unchanged; with no latched
exception and an empty result queue the call blocks up to the timeout and
then raises queue.Empty, an error distinct from the not-found error; with a
completed result at the head of the FIFO result queue it returns the tuple
(block, offset, length, data) with offset 0 and length equal to len(data),
popping the head and marking the task done; and the queue is FIFO: put
appends at the tail while get removes at the head. -/
theorem C4_read_get_contract (s : DataBackend.State) :
    (∀ e, s.last_exception = some e → DataBackend.read_get s = (.raised e, s)) ∧
    (s.last_exception = none → s.read_data_queue.items = [] →
      DataBackend.read_get s = (.raised .queueEmpty, s)) ∧
    (∀ m, PyErr.queueEmpty ≠ PyErr.fileNotFound m) ∧
    (∀ block d rest, s.last_exception = none →
      s.read_data_queue.items = (block, some d) :: rest →
      DataBackend.read_get s =
        (.ok block 0 d.length (some d),
         { s with read_data_queue :=
             PyQueue.taskDone { s.read_data_queue with items := rest } })) ∧
    (∀ (q : PyQueue (Block × Option Bytes)) x, (q.push x).items = q.items ++ [x]) := by
  refine ⟨fun e he => ?_, fun h1 h2 => ?_, fun m h => PyErr.noConfusion h,
    fun block d rest h1 h2 => ?_, fun q x => rfl⟩
  · simp [DataBackend.read_get, he]
  · simp [DataBackend.read_get, PyQueue.pop, h1, h2]
  · simp [DataBackend.read_get, PyQueue.pop, h1, h2]

/-- C4 witness: read_get at a state whose result queue holds one completed
two-byte result returns it with offset 0 and length 2. -/
theorem C4_read_get_contract_witness :
    dbSync.last_exception = none ∧
    dbSync.read_data_queue.items = (blk4, some [104, 105]) :: [] ∧
    DataBackend.read_get dbSync =
      (.ok blk4 0 2 (some [104, 105]),
       { dbSync with read_data_queue :=
           PyQueue.taskDone { dbSync.read_data_queue with items := [] } }) :=
  ⟨rfl, rfl, (C4_read_get_contract dbSync).2.2.2.1 blk4 [104, 105] [] rfl rfl⟩

/-- C5: evaluation at the failing input. With the spec-modelled absent-data
ReadResult for a never-written uid on the result queue, the base read_get
raises TypeError while computing len of the absent data instead of returning
the ReadResult with data absent; consequently even the synchronous read path
propagates that TypeError, and the FileNotFoundError branch of read (the
only raiser of not-found) is unreachable. -/
theorem C5_absent_data_eval :
    (DataBackend.read_get (specAbsentResultPush emptyDB blk4)).1 =
      ReadGetOut.raised (.typeError "object of type NoneType has no len") ∧
    (∀ b o l d,
      (DataBackend.read_get (specAbsentResultPush emptyDB blk4)).1 ≠ ReadGetOut.ok b o l d) ∧
    (DataBackend.read (specAbsentResultPush emptyDB blk4) blk4 true).1 =
      ReadOutcome.raised (.typeError "object of type NoneType has no len") := by
  refine ⟨rfl, fun b o l d => ?_, rfl⟩
  rw [show (DataBackend.read_get (specAbsentResultPush emptyDB blk4)).1 =
      ReadGetOut.raised (.typeError "object of type NoneType has no len") from rfl]
  simp

/-- C6: for every 22-character token over the 57-symbol shortuuid alphabet,
the generated uid is the 32-character string formed by prepending the first
10 characters of the md5 hexdigest of the token ascii bytes to the token;
its first 10 characters are lowercase hex digits and its remaining 22
characters are the token, which is alphanumeric. -/
theorem C6_uid_format (token : String) (h1 : token.length = 22)
    (h2 : ∀ c ∈ token.toList, c ∈ shortuuidAlphabet) :
    DataBackend.uidChars token =
      (MD5.hexdigestChars (asciiBytes token)).take 10 ++ token.toList ∧
    (DataBackend.uid token).length = 32 ∧
    (∀ c ∈ (DataBackend.uidChars token).take 10, c ∈ MD5.hexChars) ∧
    (DataBackend.uidChars token).drop 10 = token.toList ∧
    (∀ c ∈ (DataBackend.uidChars token).drop 10, isAlnumAscii c = true) := by
  have htok : token.toList.length = 22 := h1
  have hlen10 : ((MD5.hexdigestChars (asciiBytes token)).take 10).length = 10 := by
    rw [List.length_take, hexdigestChars_length]
    decide
  refine ⟨rfl, ?_, ?_, ?_, ?_⟩
  · show (DataBackend.uidChars token).length = 32
    simp only [DataBackend.uidChars, List.length_append, hlen10, htok]
  · intro c hc
    simp only [DataBackend.uidChars] at hc
    rw [List.take_left' hlen10] at hc
    exact mem_hexdigestChars (List.take_subset _ _ hc)
  · simp only [DataBackend.uidChars]
    rw [List.drop_left' hlen10]
  · intro c hc
    simp only [DataBackend.uidChars] at hc
    rw [List.drop_left' hlen10] at hc
    exact alphabet_alnum c (h2 c hc)

/-- C6 witness: a concrete 22-character alphabet token yields a 32-character
uid. -/
theorem C6_uid_format_witness :
    ("abcdefghijkmnopqrstuvw" : String).length = 22 ∧
    (DataBackend.uid "abcdefghijkmnopqrstuvw").length = 32 :=
  ⟨by decide, (C6_uid_format "abcdefghijkmnopqrstuvw" (by decide) (by decide)).2.1⟩

/-- C7: evaluation at the failing input. The write queue of nsWithSavedJob
holds exactly the three-field job tuple the base save enqueues, and the null
writer raises ValueError unpacking it instead of processing it; on a
two-field job the iteration performs dequeue, Throttled, sleep per
consume(len(payload)), Idle, Writing, Idle, task_done, but emits no medium
write and no callback invocation. -/
theorem C7_writer_eval :
    nsWithSavedJob.write_queue.items =
      (DataBackend.save emptyDB "tok" [1] false (.callable 7)).2.write_queue.items ∧
    (NullBackend.writerStep nsWithSavedJob 0).1 =
      WriterResult.raised (.valueError "too many values to unpack") ∧
    (NullBackend.writerStep nsTwoField 0).1 = WriterResult.looped ∧
    (NullBackend.writerStep nsTwoField 0).2.1 =
      [.setStatus 0 STATUS_THROTTLING, .sleepConsume 2, .setStatus 0 STATUS_NOTHING,
       .setStatus 0 STATUS_WRITING, .setStatus 0 STATUS_NOTHING, .taskDone] ∧
    (∀ u, WriterEvent.invokedCallback u ∉ (NullBackend.writerStep nsTwoField 0).2.1) ∧
    (∀ u d, WriterEvent.mediumWrite u d ∉ (NullBackend.writerStep nsTwoField 0).2.1) := by
  refine ⟨rfl, rfl, rfl, rfl, fun u => ?_, fun u d => ?_⟩
  · rw [show (NullBackend.writerStep nsTwoField 0).2.1 =
        [.setStatus 0 STATUS_THROTTLING, .sleepConsume 2, .setStatus 0 STATUS_NOTHING,
         .setStatus 0 STATUS_WRITING, .setStatus 0 STATUS_NOTHING, .taskDone] from rfl]
    simp
  · rw [show (NullBackend.writerStep nsTwoField 0).2.1 =
        [.setStatus 0 STATUS_THROTTLING, .sleepConsume 2, .setStatus 0 STATUS_NOTHING,
         .setStatus 0 STATUS_WRITING, .setStatus 0 STATUS_NOTHING, .taskDone] from rfl]
    simp

/-- C8: close puts exactly one stop sentinel per writer thread on the write
queue and joins every writer thread before it puts one sentinel per reader
thread on the read-request queue and joins every reader thread, as the
event trace shows in program order; a second call to close enqueues the
sentinels again, so close is not idempotent. -/
theorem C8_close_contract (s : NullBackend.State) :
    (NullBackend.close s).2 =
      List.replicate s.writer_threads CloseEvent.putWriteSentinel ++
      List.replicate s.writer_threads CloseEvent.joinWriter ++
      (List.replicate s.reader_threads CloseEvent.putReadSentinel ++
       List.replicate s.reader_threads CloseEvent.joinReader) ∧
    ((NullBackend.close s).1).write_queue.items =
      s.write_queue.items ++ List.replicate s.writer_threads WEntry.sentinel ∧
    ((NullBackend.close s).1).read_queue.items =
      s.read_queue.items ++ List.replicate s.reader_threads (none : Option Block) ∧
    ((NullBackend.close ((NullBackend.close s).1)).1).write_queue.items =
      s.write_queue.items ++ List.replicate s.writer_threads WEntry.sentinel ++
        List.replicate s.writer_threads WEntry.sentinel ∧
    ((NullBackend.close ((NullBackend.close s).1)).1).read_queue.items =
      s.read_queue.items ++ List.replicate s.reader_threads (none : Option Block) ++
        List.replicate s.reader_threads (none : Option Block) := by
  refine ⟨?_, ?_, ?_, ?_, ?_⟩ <;> simp [close_spec]

/-- C9: the asynchronous read entry points never consult the latch: for every
state, latched or not, read with sync false pushes the block onto the
unbounded read-request queue and returns None without raising, both on the
base class and on the null override; and a reader worker that observes a
latched fatal error exits after dequeuing a request without servicing it
(no result is pushed). -/
theorem C9_async_read_ignores_latch (s : DataBackend.State) (block : Block)
    (gen : Nat → Nat → Bytes) (ns : NullBackend.State) (id : Nat) :
    (s.read_queue.maxsize = 0 →
      DataBackend.read s block false =
        (.retNone, { s with read_queue := s.read_queue.push (some block) })) ∧
    (ns.read_queue.maxsize = 0 →
      NullBackend.read ns block false =
        (.retNone, { ns with read_queue := ns.read_queue.push (some block) })) ∧
    (∀ e blk rest, ns.fatal_error = some e → ns.read_queue.items = some blk :: rest →
      NullBackend.readerStep gen ns id =
        (.exited, { ns with read_queue := { ns.read_queue with items := rest } })) := by
  refine ⟨fun h => ?_, fun h => ?_, fun e blk rest hf hi => ?_⟩
  · simp [DataBackend.read, PyQueue.isFull, h]
  · simp [NullBackend.read, PyQueue.isFull, h]
  · simp [NullBackend.readerStep, PyQueue.pop, hi, hf]

/-- C9 witness: on a base state with the latch set, the asynchronous read
still enqueues and returns None, and a null reader worker with a latched
fatal error dequeues the pending request and exits without pushing a
result. -/
theorem C9_async_read_ignores_latch_witness :
    dbLatched.last_exception = some (.latched "medium failure") ∧
    DataBackend.read dbLatched blk5 false =
      (.retNone, { dbLatched with read_queue := dbLatched.read_queue.push (some blk5) }) ∧
    NullBackend.readerStep (fun _ n => List.replicate n 0) nsLatched 0 =
      (.exited, { nsLatched with read_queue := { nsLatched.read_queue with items := [] } }) :=
  ⟨rfl,
   (C9_async_read_ignores_latch dbLatched blk5 (fun _ n => List.replicate n 0)
       nsLatched 0).1 rfl,
   (C9_async_read_ignores_latch dbLatched blk5 (fun _ n => List.replicate n 0)
       nsLatched 0).2.2 (.latched "medium failure") blk4 [] rfl rfl⟩

/-- C10: at construction the write queue capacity is simultaneous_writes + 20,
the read-result queue capacity is simultaneous_reads + 20, the read-request
queue is unbounded (maxsize 0), and every modelled operation of the backend
preserves all three capacities. -/
theorem C10_queue_capacities (cfg : NullBackend.Config) :
    (NullBackend.init cfg).write_queue.maxsize = cfg.simultaneous_writes + 20 ∧
    (NullBackend.init cfg).read_data_queue.maxsize = cfg.simultaneous_reads + 20 ∧
    (NullBackend.init cfg).read_queue.maxsize = 0 ∧
    (∀ s token data sync, queueCaps (NullBackend.save s token data sync).2 = queueCaps s) ∧
    (∀ s block sync, queueCaps (NullBackend.read s block sync).2 = queueCaps s) ∧
    (∀ s, queueCaps (NullBackend.read_get s).2 = queueCaps s) ∧
    (∀ s id, queueCaps (NullBackend.writerStep s id).2.2 = queueCaps s) ∧
    (∀ gen s id, queueCaps (NullBackend.readerStep gen s id).2 = queueCaps s) ∧
    (∀ s, queueCaps (NullBackend.close s).1 = queueCaps s) := by
  refine ⟨rfl, rfl, rfl, ?_, ?_, ?_, ?_, ?_, ?_⟩
  · intro s token data sync
    rcases h : s.fatal_error with _ | e <;> simp [NullBackend.save, h]
  · intro s block sync
    unfold NullBackend.read
    split
    · rfl
    · split <;> rfl
  · intro s
    rcases h : s.read_data_queue.items with _ | ⟨⟨b, od⟩, rest⟩
    · simp [NullBackend.read_get, PyQueue.pop, h]
    · rcases od with _ | d <;>
        simp [NullBackend.read_get, PyQueue.pop, PyQueue.taskDone, h, queueCaps]
  · intro s id
    rcases h : s.write_queue.items with _ | ⟨entry, rest⟩
    · simp [NullBackend.writerStep, PyQueue.pop, h]
    · rcases entry with _ | fields
      · simp [NullBackend.writerStep, PyQueue.pop, h, queueCaps]
      · rcases hf : s.fatal_error with _ | e
        · rcases fields with _ | ⟨a, tail1⟩
          · simp [NullBackend.writerStep, PyQueue.pop, h, hf, queueCaps]
          · rcases tail1 with _ | ⟨b, tail2⟩
            · simp [NullBackend.writerStep, PyQueue.pop, h, hf, queueCaps]
            · rcases tail2 with _ | ⟨c, tail3⟩
              · rcases hb : pyLen b with _ | n <;>
                  simp [NullBackend.writerStep, PyQueue.pop, PyQueue.taskDone, h, hf, hb,
                    queueCaps]
              · simp [NullBackend.writerStep, PyQueue.pop, h, hf, queueCaps]
        · simp [NullBackend.writerStep, PyQueue.pop, h, hf, queueCaps]
  · intro gen s id
    rcases h : s.read_queue.items with _ | ⟨entry, rest⟩
    · simp [NullBackend.readerStep, PyQueue.pop, h]
    · rcases entry with _ | block
      · simp [NullBackend.readerStep, PyQueue.pop, h, queueCaps]
      · rcases hf : s.fatal_error with _ | e
        · by_cases hq :
            ({ s with read_queue := { s.read_queue with items := rest }
               : NullBackend.State }).read_data_queue.isFull = true <;>
            simp [NullBackend.readerStep, PyQueue.pop, PyQueue.push, PyQueue.taskDone,
              h, hf, hq, queueCaps]
        · simp [NullBackend.readerStep, PyQueue.pop, h, hf, queueCaps]
  · intro s
    simp [close_spec, queueCaps]

end Backy2
